import Mathlib

/-!
Shallow embedding of the configuration subsystem of birdnet-go
(`internal/conf/config.go`) and proofs about it.

Modelling conventions:
* Go `string` becomes `String`, `bool` becomes `Bool`, `int`/`int64` become
  `Int`, `time.Duration` becomes `Int` (nanoseconds).
* Go `float64`/`float32` fields are carried as exact rationals (`Rat`); no
  verified property inspects a floating-point value, the fields are inert data.
* Go maps that no property inspects are carried as association lists.
* Stateful operations (file system, the process-wide settings instance, the
  `sync.Once` guard) are modelled by explicit state passing; external calls
  that can fail (`os.CreateTemp`, `viper.ReadInConfig`, `rand.Read`, ...)
  are driven by an explicit fault/outcome environment so every control-flow
  path of the source is reachable in the model.
* Functions of this package that are referenced but live outside
  `config.go` (`moveFile`, `GetDefaultConfigPaths`, `FindConfigFile`,
  `ValidateSettings`) are represented by injected outcomes, except where a
  claim depends on their behaviour, in which case they are modelled from the
  spec and marked as such.
-/

namespace Conf

/-- Character-list version of Go `strings.HasPrefix`: does `s` start with `p`? -/
def startsWithChars : List Char → List Char → Bool
  | _, [] => true
  | [], _ :: _ => false
  | c :: cs, p :: ps => c = p && startsWithChars cs ps

/-- Character-list version of Go `strings.Contains`: does `p` occur inside `s`? -/
def containsChars : List Char → List Char → Bool
  | [], p => startsWithChars [] p
  | c :: cs, p => startsWithChars (c :: cs) p || containsChars cs p

/-- Go `strings.Contains s pat`. -/
def containsSub (s pat : String) : Bool :=
  containsChars s.data pat.data

/-- Go duration (`time.Duration`), carried as a count of nanoseconds. -/
abbrev GoDuration := Int

/-- An opaque YAML-style dynamic value, the carrier for Go `any` in
target-settings payload maps (`map[string]any`). -/
inductive ConfigValue where
  | null
  | boolean (b : Bool)
  | int (n : Int)
  | float (q : Rat)
  | str (s : String)
  | list (xs : List ConfigValue)
  | table (kvs : List (String × ConfigValue))
  deriving Inhabited

/-- EqualizerFilter is a struct for equalizer filter settings -/
structure EqualizerFilter where
  Typ : String -- Go field `Type`: e.g., "LowPass", "HighPass", "BandPass", etc.
  Frequency : Rat
  Q : Rat
  Gain : Rat
  Width : Rat
  Passes : Int
  deriving Inhabited, DecidableEq

/-- EqualizerSettings is a struct for audio EQ settings -/
structure EqualizerSettings where
  Enabled : Bool
  Filters : List EqualizerFilter
  deriving Inhabited, DecidableEq

structure RetentionSettings where
  Debug : Bool
  Policy : String
  MaxAge : String
  MaxUsage : String
  MinClips : Int
  KeepSpectrograms : Bool
  deriving Inhabited, DecidableEq

structure ExportSettings where
  Debug : Bool
  Enabled : Bool
  Path : String
  Typ : String -- Go field `Type`: audio file type, wav, mp3 or flac
  Bitrate : String
  Retention : RetentionSettings
  deriving Inhabited, DecidableEq

/-- SoundLevelSettings contains settings for sound level monitoring -/
structure SoundLevelSettings where
  Enabled : Bool
  Interval : Int
  Debug : Bool
  DebugRealtimeLogging : Bool
  deriving Inhabited, DecidableEq

/-- AudioSettings contains settings for audio processing and export. -/
structure AudioSettings where
  Source : String
  FfmpegPath : String
  SoxPath : String
  SoxAudioTypes : List String
  StreamTransport : String
  Export : ExportSettings
  SoundLevel : SoundLevelSettings
  UseAudioCore : Bool
  Equalizer : EqualizerSettings
  deriving Inhabited, DecidableEq

structure Thumbnails where
  Debug : Bool
  Summary : Bool
  Recent : Bool
  ImageProvider : String
  FallbackPolicy : String
  deriving Inhabited, DecidableEq

/-- Dashboard contains settings for the web dashboard. -/
structure Dashboard where
  Thumbnails : Thumbnails
  SummaryLimit : Int
  deriving Inhabited, DecidableEq

/-- DynamicThresholdSettings contains settings for dynamic threshold adjustment. -/
structure DynamicThresholdSettings where
  Enabled : Bool
  Debug : Bool
  Trigger : Rat
  Min : Rat
  ValidHours : Int
  deriving Inhabited, DecidableEq

/-- RetrySettings contains common settings for retry mechanisms -/
structure RetrySettings where
  Enabled : Bool
  MaxRetries : Int
  InitialDelay : Int
  MaxDelay : Int
  BackoffMultiplier : Rat
  deriving Inhabited, DecidableEq

/-- BirdweatherSettings contains settings for BirdWeather API integration. -/
structure BirdweatherSettings where
  Enabled : Bool
  Debug : Bool
  ID : String
  Threshold : Rat
  LocationAccuracy : Rat
  RetrySettings : RetrySettings
  deriving Inhabited, DecidableEq

/-- OpenWeatherSettings contains settings for OpenWeather integration. -/
structure OpenWeatherSettings where
  Enabled : Bool
  APIKey : String
  Endpoint : String
  Units : String
  Language : String
  deriving Inhabited, DecidableEq

/-- WeatherSettings contains all weather-related settings -/
structure WeatherSettings where
  Provider : String
  PollInterval : Int
  Debug : Bool
  OpenWeather : OpenWeatherSettings
  deriving Inhabited, DecidableEq

/-- PrivacyFilterSettings contains settings for the privacy filter. -/
structure PrivacyFilterSettings where
  Debug : Bool
  Enabled : Bool
  Confidence : Rat
  deriving Inhabited, DecidableEq

/-- DogBarkFilterSettings contains settings for the dog bark filter. -/
structure DogBarkFilterSettings where
  Debug : Bool
  Enabled : Bool
  Confidence : Rat
  Remember : Int
  Species : List String
  deriving Inhabited, DecidableEq

/-- RTSPHealthSettings contains settings for RTSP stream health monitoring. -/
structure RTSPHealthSettings where
  HealthyDataThreshold : Int
  MonitoringInterval : Int
  deriving Inhabited, DecidableEq

/-- RTSPSettings contains settings for RTSP streaming. -/
structure RTSPSettings where
  Transport : String
  URLs : List String
  Health : RTSPHealthSettings
  FFmpegParameters : List String
  deriving Inhabited, DecidableEq

/-- MQTTTLSSettings contains TLS/SSL configuration for secure MQTT connections -/
structure MQTTTLSSettings where
  Enabled : Bool
  InsecureSkipVerify : Bool
  CACert : String
  ClientCert : String
  ClientKey : String
  deriving Inhabited, DecidableEq

/-- MQTTSettings contains settings for MQTT integration. -/
structure MQTTSettings where
  Enabled : Bool
  Debug : Bool
  Broker : String
  Topic : String
  Username : String
  Password : String
  Retain : Bool
  RetrySettings : RetrySettings
  TLS : MQTTTLSSettings
  deriving Inhabited, DecidableEq

/-- TelemetrySettings contains settings for telemetry. -/
structure TelemetrySettings where
  Enabled : Bool
  Listen : String
  deriving Inhabited, DecidableEq

/-- ThresholdSettings contains warning and critical thresholds -/
structure ThresholdSettings where
  Enabled : Bool
  Warning : Rat
  Critical : Rat
  deriving Inhabited, DecidableEq

/-- DiskThresholdSettings contains disk monitoring configuration for multiple paths -/
structure DiskThresholdSettings where
  Enabled : Bool
  Warning : Rat
  Critical : Rat
  Paths : List String
  deriving Inhabited, DecidableEq

/-- MonitoringSettings contains settings for system resource monitoring -/
structure MonitoringSettings where
  Enabled : Bool
  CheckInterval : Int
  CriticalResendInterval : Int
  HysteresisPercent : Rat
  CPU : ThresholdSettings
  Memory : ThresholdSettings
  Disk : DiskThresholdSettings
  deriving Inhabited, DecidableEq

/-- SentrySettings contains settings for Sentry error tracking -/
structure SentrySettings where
  Enabled : Bool
  Debug : Bool
  deriving Inhabited, DecidableEq

/-- SpeciesAction represents a single action configuration -/
structure SpeciesAction where
  Typ : String -- Go field `Type`
  Command : String
  Parameters : List String
  ExecuteDefaults : Bool
  deriving Inhabited, DecidableEq

/-- SpeciesConfig represents configuration for a specific species -/
structure SpeciesConfig where
  Threshold : Rat
  Interval : Int
  Actions : List SpeciesAction
  deriving Inhabited, DecidableEq

/-- SpeciesSettings contains all species-specific settings
(Go map `Config` carried as an association list). -/
structure SpeciesSettings where
  Include : List String
  Exclude : List String
  Config : List (String × SpeciesConfig)
  deriving Inhabited, DecidableEq

/-- The anonymous OBS chat log struct nested in RealtimeSettings. -/
structure RealtimeLogSettings where
  Enabled : Bool
  Path : String
  deriving Inhabited, DecidableEq

/-- RealtimeSettings contains all settings related to realtime processing. -/
structure RealtimeSettings where
  Interval : Int
  ProcessingTime : Bool
  Audio : AudioSettings
  Dashboard : Dashboard
  DynamicThreshold : DynamicThresholdSettings
  Log : RealtimeLogSettings
  Birdweather : BirdweatherSettings
  OpenWeather : OpenWeatherSettings
  PrivacyFilter : PrivacyFilterSettings
  DogBarkFilter : DogBarkFilterSettings
  RTSP : RTSPSettings
  MQTT : MQTTSettings
  Telemetry : TelemetrySettings
  Monitoring : MonitoringSettings
  Species : SpeciesSettings
  Weather : WeatherSettings
  deriving Inhabited, DecidableEq

/-- ActionConfig holds configuration details for a specific action. -/
structure ActionConfig where
  Typ : String -- Go field `Type`
  Parameters : List String
  deriving Inhabited, DecidableEq

/-- InputConfig holds settings for file or directory analysis -/
structure InputConfig where
  Path : String
  Recursive : Bool
  Watch : Bool
  deriving Inhabited, DecidableEq

/-- RangeFilterSettings contains settings for the range filter
(`LastUpdated time.Time` carried as nanoseconds since the epoch). -/
structure RangeFilterSettings where
  Debug : Bool
  Model : String
  Threshold : Rat
  Species : List String
  LastUpdated : Int
  deriving Inhabited, DecidableEq

structure BirdNETConfig where
  Debug : Bool
  Sensitivity : Rat
  Threshold : Rat
  Overlap : Rat
  Longitude : Rat
  Latitude : Rat
  Threads : Int
  Locale : String
  RangeFilter : RangeFilterSettings
  ModelPath : String
  LabelPath : String
  Labels : List String
  UseXNNPACK : Bool
  deriving Inhabited, DecidableEq

/-- BasicAuth holds settings for the password authentication -/
structure BasicAuth where
  Enabled : Bool
  Password : String
  ClientID : String
  ClientSecret : String
  RedirectURI : String
  AuthCodeExp : GoDuration
  AccessTokenExp : GoDuration
  deriving Inhabited, DecidableEq

/-- SocialProvider holds settings for an OAuth2 identity provider -/
structure SocialProvider where
  Enabled : Bool
  ClientID : String
  ClientSecret : String
  RedirectURI : String
  UserId : String
  deriving Inhabited, DecidableEq

structure AllowSubnetBypass where
  Enabled : Bool
  Subnet : String
  deriving Inhabited, DecidableEq

/-- Security handles all security-related settings and validations. -/
structure Security where
  Debug : Bool
  Host : String
  AutoTLS : Bool
  RedirectToHTTPS : Bool
  AllowSubnetBypass : AllowSubnetBypass
  BasicAuth : BasicAuth
  GoogleAuth : SocialProvider
  GithubAuth : SocialProvider
  SessionSecret : String
  SessionDuration : GoDuration
  deriving Inhabited, DecidableEq

/-- RotationType defines different types of log rotations. -/
abbrev RotationType := String

def RotationDaily : RotationType := "daily"

def RotationWeekly : RotationType := "weekly"

def RotationSize : RotationType := "size"

/-- LogConfig defines the configuration for a log file -/
structure LogConfig where
  Enabled : Bool
  Path : String
  Rotation : RotationType
  MaxSize : Int
  RotationDay : String
  deriving Inhabited, DecidableEq

structure LiveStreamSettings where
  Debug : Bool
  BitRate : Int
  SampleRate : Int
  SegmentLength : Int
  FfmpegLogLevel : String
  deriving Inhabited, DecidableEq

structure WebServerSettings where
  Debug : Bool
  Enabled : Bool
  Port : String
  Log : LogConfig
  LiveStream : LiveStreamSettings
  deriving Inhabited, DecidableEq

/-- BackupRetention defines backup retention policy -/
structure BackupRetention where
  MaxAge : String
  MaxBackups : Int
  MinBackups : Int
  deriving Inhabited, DecidableEq

/-- BackupTarget defines settings for a backup target
(the opaque `map[string]any` payload carried as an association list). -/
structure BackupTarget where
  Typ : String -- Go field `Type`: target kind discriminator
  Enabled : Bool
  Settings : List (String × ConfigValue)
  deriving Inhabited

/-- BackupScheduleConfig defines a single backup schedule -/
structure BackupScheduleConfig where
  Enabled : Bool
  Hour : Int
  Minute : Int
  Weekday : String
  IsWeekly : Bool
  deriving Inhabited, DecidableEq

/-- The anonymous OperationTimeouts struct nested in BackupConfig. -/
structure OperationTimeouts where
  Backup : GoDuration
  Store : GoDuration
  Cleanup : GoDuration
  Delete : GoDuration
  deriving Inhabited, DecidableEq

/-- BackupConfig contains backup-related configuration -/
structure BackupConfig where
  Enabled : Bool
  Debug : Bool
  Encryption : Bool
  EncryptionKey : String
  SanitizeConfig : Bool
  Retention : BackupRetention
  Targets : List BackupTarget
  Schedules : List BackupScheduleConfig
  OperationTimeouts : OperationTimeouts
  deriving Inhabited

/-- The anonymous Main struct nested in Settings. -/
structure MainSettings where
  Name : String
  TimeAs24h : Bool
  Log : LogConfig
  deriving Inhabited, DecidableEq

/-- The anonymous Output.File struct nested in Settings. -/
structure FileOutputSettings where
  Enabled : Bool
  Path : String
  Typ : String -- Go field `Type`: table, csv
  deriving Inhabited, DecidableEq

/-- The anonymous Output.SQLite struct nested in Settings. -/
structure SQLiteOutputSettings where
  Enabled : Bool
  Path : String
  deriving Inhabited, DecidableEq

/-- The anonymous Output.MySQL struct nested in Settings. -/
structure MySQLOutputSettings where
  Enabled : Bool
  Username : String
  Password : String
  Database : String
  Host : String
  Port : String
  deriving Inhabited, DecidableEq

/-- The anonymous Output struct nested in Settings. -/
structure OutputSettings where
  File : FileOutputSettings
  SQLite : SQLiteOutputSettings
  MySQL : MySQLOutputSettings
  deriving Inhabited, DecidableEq

/-- Settings contains all configuration options for the BirdNET-Go application. -/
structure Settings where
  Debug : Bool
  Version : String
  BuildDate : String
  SystemID : String
  ValidationWarnings : List String
  Main : MainSettings
  BirdNET : BirdNETConfig
  Input : InputConfig
  Realtime : RealtimeSettings
  WebServer : WebServerSettings
  Security : Security
  Sentry : SentrySettings
  Output : OutputSettings
  Backup : BackupConfig
  deriving Inhabited

/-- LocalBackupSettings defines settings for local filesystem backup target.
All `Validate` methods mirror their Go pointer-receiver originals: the result
is the (possibly defaulted) receiver paired with `some errorMessage` when
validation failed, `none` when it succeeded. -/
structure LocalBackupSettings where
  Path : String
  deriving Inhabited, DecidableEq

/-- Validate validates local backup settings -/
def LocalBackupSettings.Validate (s : LocalBackupSettings) :
    Option String × LocalBackupSettings :=
  if s.Path = "" then (some ("local backup path cannot be empty"), s)
  else (none, s)

/-- FTPBackupSettings defines settings for FTP backup target -/
structure FTPBackupSettings where
  Host : String
  Port : Int
  Username : String
  Password : String
  Path : String
  UseTLS : Bool
  deriving Inhabited, DecidableEq

/-- Validate validates FTP backup settings -/
def FTPBackupSettings.Validate (s : FTPBackupSettings) :
    Option String × FTPBackupSettings :=
  if s.Host = "" then (some ("FTP host cannot be empty"), s)
  else if s.Port = 0 then (none, { s with Port := 21 }) -- Set default port
  else (none, s)

/-- SFTPBackupSettings defines settings for SFTP backup target -/
structure SFTPBackupSettings where
  Host : String
  Port : Int
  Username : String
  Password : String
  PrivateKeyPath : String
  Path : String
  deriving Inhabited, DecidableEq

/-- Validate validates SFTP backup settings -/
def SFTPBackupSettings.Validate (s : SFTPBackupSettings) :
    Option String × SFTPBackupSettings :=
  if s.Host = "" then (some ("SFTP host cannot be empty"), s)
  else
    -- the Go receiver is a pointer: the port default is applied before the
    -- username check, so it persists even when the username check fails
    let s1 := if s.Port = 0 then { s with Port := 22 } else s
    if s1.Username = "" then (some ("SFTP username cannot be empty"), s1)
    else (none, s1)

/-- S3BackupSettings defines settings for S3-compatible backup target -/
structure S3BackupSettings where
  Endpoint : String
  Region : String
  Bucket : String
  AccessKeyID : String
  SecretAccessKey : String
  Prefix : String
  UseSSL : Bool
  deriving Inhabited, DecidableEq

/-- Validate validates S3 backup settings -/
def S3BackupSettings.Validate (s : S3BackupSettings) :
    Option String × S3BackupSettings :=
  if s.Bucket = "" then (some ("S3 bucket name cannot be empty"), s)
  else if s.Region = "" then (some ("S3 region cannot be empty"), s)
  else (none, s)

/-- RsyncBackupSettings defines settings for rsync backup target -/
structure RsyncBackupSettings where
  Host : String
  Port : Int
  Username : String
  Path : String
  SSHKeyPath : String
  Options : List String
  deriving Inhabited, DecidableEq

/-- Validate validates rsync backup settings -/
def RsyncBackupSettings.Validate (s : RsyncBackupSettings) :
    Option String × RsyncBackupSettings :=
  if s.Path = "" then (some ("rsync path cannot be empty"), s)
  else if s.Host ≠ "" ∧ s.Port = 0 then
    (none, { s with Port := 22 }) -- Set default SSH port for remote rsync
  else (none, s)

/-- GoogleDriveBackupSettings defines settings for Google Drive backup target -/
structure GoogleDriveBackupSettings where
  CredentialsPath : String
  FolderID : String
  deriving Inhabited, DecidableEq

/-- Validate validates Google Drive backup settings -/
def GoogleDriveBackupSettings.Validate (s : GoogleDriveBackupSettings) :
    Option String × GoogleDriveBackupSettings :=
  if s.CredentialsPath = "" then
    (some ("google drive credentials path cannot be empty"), s)
  else (none, s)

/-- The error categories of the `internal/errors` package that `config.go`
attaches to the errors it builds (`uncategorized` stands for an error
returned without wrapping, e.g. the raw `viper.ReadInConfig` error at the
end of `createDefaultConfig`). -/
inductive ErrCategory where
  | configuration
  | validation
  | fileIOCat
  | system
  | uncategorized
  deriving Inhabited, DecidableEq, Repr

/-- A categorized error: the category plus the `operation`/context string
attached via `.Context(...)` in the source. -/
structure CatError where
  category : ErrCategory
  context : String
  deriving Inhabited, DecidableEq, Repr

/-- Did an `Except` computation succeed? -/
def exceptOk : Except CatError α → Bool
  | .ok _ => true
  | .error _ => false

/-! ### ConfigLoader: `initViper` / `createDefaultConfig` (lines 683-761) -/

/-- Outcome of the `viper.ReadInConfig()` call in `initViper`. -/
inductive ReadOutcome where
  | ok        -- the config file was read successfully
  | notFound  -- `viper.ConfigFileNotFoundError`
  | otherFail -- any other read error
  deriving Inhabited, DecidableEq, Repr

/-- Injected outcomes of the external calls made during loader
initialization. -/
structure ViperEnv where
  readResult : ReadOutcome -- outcome of `viper.ReadInConfig` in `initViper`
  getPathsFails : Bool -- `GetDefaultConfigPaths` (defined outside config.go) errors
  clientSecretSet : Bool -- `viper.GetString("security.basicauth.clientsecret")` is non-empty
  mkdirFails : Bool -- `os.MkdirAll` errors
  writeFails : Bool -- `os.WriteFile` errors
  rereadFails : Bool -- the final `viper.ReadInConfig()` of `createDefaultConfig` errors
  deriving Inhabited, DecidableEq, Repr

/-- Observable side effects of loader initialization: which permission bits
the config directories / the default document were created with (when they
were), and whether a fresh client secret was generated. -/
structure MatWorld where
  dirsCreated : Option Nat -- permission bits of the created config directories
  defaultWritten : Option Nat -- permission bits of the written default document
  secretGenerated : Bool -- a fresh client secret was generated and stored
  deriving Inhabited, DecidableEq, Repr

/-- createDefaultConfig creates a default config file and writes it to the
default config path (config.go lines 724-761). `0o600 = 384`, `0o755 = 493`. -/
def createDefaultConfig (env : ViperEnv) (w : MatWorld) :
    Except CatError Unit × MatWorld :=
  if env.getPathsFails then
    (.error ⟨.configuration, "create-default-config-paths"⟩, w)
  else
    -- If the basicauth secret is not set, generate a random one
    let w1 := if env.clientSecretSet then w else { w with secretGenerated := true }
    -- Create directories for config file
    if env.mkdirFails then (.error ⟨.fileIOCat, "create-config-dirs"⟩, w1)
    else
      let w2 := { w1 with dirsCreated := some 493 }
      -- Write default config file with secure permissions (0600)
      if env.writeFails then (.error ⟨.fileIOCat, "write-default-config"⟩, w2)
      else
        let w3 := { w2 with defaultWritten := some 384 }
        -- return viper.ReadInConfig()
        if env.rereadFails then (.error ⟨.uncategorized, "read-in-config"⟩, w3)
        else (.ok (), w3)

/-- initViper initializes viper with default values and reads the
configuration file (config.go lines 683-721). -/
def initViper (env : ViperEnv) (w : MatWorld) : Except CatError Unit × MatWorld :=
  if env.getPathsFails then (.error ⟨.configuration, "get-config-paths"⟩, w)
  else
    match env.readResult with
    | .ok => (.ok (), w)
    | .notFound =>
        -- Config file not found, create config with defaults
        createDefaultConfig env w
    | .otherFail =>
        -- Report critical config file read errors
        (.error ⟨.fileIOCat, "read-config-file"⟩, w)

/-! ### Load and the warning/fatal validation split (lines 614-680) -/

/-- Is a validation message classified as a warning by `Load`
(config.go line 645)? -/
def isWarningMsg (msg : String) : Bool :=
  containsSub msg ("fallback") || containsSub msg ("not supported")

/-- The classification loop of `Load` over the messages of a
`ValidationError` (config.go lines 644-659): warnings are appended to the
runtime-only `ValidationWarnings` list, the first non-warning message aborts
with a Validation-category error. -/
def processValidationMsgs (settings : Settings) : List String → Except CatError Settings
  | [] => .ok settings
  | msg :: rest =>
      if isWarningMsg msg then
        processValidationMsgs
          { settings with ValidationWarnings := settings.ValidationWarnings ++ [msg] }
          rest
      else
        -- This is a real validation error - fail the config load
        .error ⟨.validation, msg⟩

/-- Outcome of the `ValidateSettings` call (the function itself lives
outside config.go; `Load` only inspects its result as shown). -/
inductive ValidateOutcome where
  | passed                          -- ValidateSettings returned nil
  | validationErr (msgs : List String) -- a `ValidationError` carrying messages
  | otherErr                        -- an error that is not a `ValidationError`
  deriving Inhabited

/-- Injected outcomes of the external calls made by `Load`. -/
structure LoadEnv where
  viper : ViperEnv -- environment for the `initViper` call
  unmarshalFails : Bool -- `viper.Unmarshal` errors
  parsed : Settings -- the settings produced by `viper.Unmarshal`
  validate : ValidateOutcome -- result of `ValidateSettings`
  deriving Inhabited

/-- Load reads the configuration file into a fresh Settings value, validates
it, and installs it as the process-wide instance exactly when everything
succeeded (config.go lines 614-680). The third component is the
`settingsInstance` global after the call (`prev` is its value before). -/
def Load (env : LoadEnv) (w : MatWorld) (prev : Option Settings) :
    Except CatError Settings × MatWorld × Option Settings :=
  match initViper env.viper w with
  | (.error _, w') => (.error ⟨.configuration, "init-viper"⟩, w', prev)
  | (.ok _, w') =>
    if env.unmarshalFails then (.error ⟨.configuration, "unmarshal-config"⟩, w', prev)
    else
      match env.validate with
      | .otherErr =>
          -- Other validation errors should fail the config load
          (.error ⟨.validation, "settings"⟩, w', prev)
      | .validationErr msgs =>
          match processValidationMsgs env.parsed msgs with
          | .error e => (.error e, w', prev)
          | .ok s =>
              -- Save settings instance
              (.ok s, w', some s)
      | .passed => (.ok env.parsed, w', some env.parsed)

/-- GetSettings returns the current settings instance (config.go lines
772-777); `none` is the nil pointer. -/
def GetSettings (inst : Option Settings) : Option Settings :=
  inst

/-! ### Persister: `SaveYAMLConfig` (lines 834-898) -/

/-- The file-system operations `SaveYAMLConfig` performs, recorded as an
event trace. -/
inductive FileEvent where
  | marshalYaml   -- yaml.Marshal
  | createTemp    -- os.CreateTemp in the destination directory
  | writeTemp     -- tempFile.Write
  | closeTemp     -- tempFile.Close
  | renameTemp    -- os.Rename(tempFileName, configPath)
  | copyFallback  -- the copy step of the moveFile fallback
  | deleteSrc     -- the delete-source step of the moveFile fallback
  | removeTemp    -- the deferred os.Remove(tempFileName)
  deriving Inhabited, DecidableEq, Repr

/-- Injected failures of the external calls made by `SaveYAMLConfig`. -/
structure FaultModel where
  marshalFails : Bool -- yaml.Marshal errors
  createTempFails : Bool -- os.CreateTemp errors
  writeFails : Bool -- tempFile.Write errors
  closeFails : Bool -- tempFile.Close errors
  renameFails : Bool -- os.Rename errors (e.g. cross-device link)
  copyFails : Bool -- the copy step of the moveFile fallback errors
  deriving Inhabited, DecidableEq, Repr

/-- The relevant slice of the file system: the contents of the destination
document and of the temporary file, `none` when the file does not exist. -/
structure FSState where
  dest : Option String
  temp : Option String
  deriving Inhabited, DecidableEq, Repr

/-- Modelled from the spec: `moveFile` is referenced by `SaveYAMLConfig` but
defined outside the visible source; per the spec it is a copy-then-delete
sequence (copy the temporary file's contents over the destination, then
delete the source), failing with the destination untouched when the copy
step fails. -/
def moveFile (fm : FaultModel) (s : FSState) :
    Except CatError Unit × FSState × List FileEvent :=
  if fm.copyFails then (.error ⟨.fileIOCat, "copy-file"⟩, s, [.copyFallback])
  else (.ok (), { dest := s.temp, temp := none }, [.copyFallback, .deleteSrc])

/-- SaveYAMLConfig updates the YAML configuration file with new settings
(config.go lines 834-898). `yamlOf` stands for the external `yaml.Marshal`
serializer (gopkg.in/yaml.v3). Returns the result, the final file-system
state, and the trace of file operations. The deferred
`os.Remove(tempFileName)` runs on every path after temp creation (on paths
where the temp file is already gone it is a no-op via `os.IsNotExist`). -/
def SaveYAMLConfig (yamlOf : Settings → String) (fm : FaultModel)
    (settings : Settings) (s : FSState) :
    Except CatError Unit × FSState × List FileEvent :=
  -- Marshal the settings struct to YAML
  if fm.marshalFails then
    (.error ⟨.configuration, "yaml-marshal"⟩, s, [.marshalYaml])
  else
    let yamlData := yamlOf settings
    -- Write the YAML data to a temporary file
    if fm.createTempFails then
      (.error ⟨.fileIOCat, "create-temp-file"⟩, s, [.marshalYaml, .createTemp])
    else
      let s1 : FSState := { s with temp := some ("") }
      if fm.writeFails then
        -- best effort close on error path, then the deferred remove runs
        (.error ⟨.fileIOCat, "write-temp-file"⟩, { s1 with temp := none },
         [.marshalYaml, .createTemp, .writeTemp, .closeTemp, .removeTemp])
      else
        let s2 : FSState := { s1 with temp := some yamlData }
        if fm.closeFails then
          (.error ⟨.fileIOCat, "close-temp-file"⟩, { s2 with temp := none },
           [.marshalYaml, .createTemp, .writeTemp, .closeTemp, .removeTemp])
        else
          -- Try to rename the temporary file to replace the original config
          if fm.renameFails then
            -- If rename fails (e.g., cross-device link), fall back to copy & delete
            match moveFile fm s2 with
            | (.error _, s3, evs) =>
                (.error ⟨.fileIOCat, "move-config-file"⟩, { s3 with temp := none },
                 [.marshalYaml, .createTemp, .writeTemp, .closeTemp, .renameTemp]
                   ++ evs ++ [.removeTemp])
            | (.ok _, s3, evs) =>
                (.ok (), { s3 with temp := none },
                 [.marshalYaml, .createTemp, .writeTemp, .closeTemp, .renameTemp]
                   ++ evs ++ [.removeTemp])
          else
            (.ok (), { dest := some yamlData, temp := none },
             [.marshalYaml, .createTemp, .writeTemp, .closeTemp, .renameTemp,
              .removeTemp])

/-! ### SaveSettings (lines 779-814) -/

/-- A Go slice copy (`make` + `copy`), written out so the deep-copy step of
`SaveSettings` is explicit in the model. -/
def copyList : List String → List String
  | [] => []
  | x :: xs => x :: copyList xs

/-- The deep copy `SaveSettings` builds: a value copy of the whole struct
plus a separate copy of the range-filter species slice (config.go lines
785-792). -/
def settingsDeepCopy (inst : Settings) : Settings :=
  { inst with
    BirdNET := { inst.BirdNET with
      RangeFilter := { inst.BirdNET.RangeFilter with
        Species := copyList inst.BirdNET.RangeFilter.Species } } }

/-- Lock operations performed by `SaveSettings`, recorded as a trace. -/
inductive LockEvent where
  | settingsRLock   -- settingsMutex.RLock
  | settingsRUnlock -- deferred settingsMutex.RUnlock
  | speciesRLock    -- speciesListMutex.RLock
  | speciesRUnlock  -- speciesListMutex.RUnlock
  deriving Inhabited, DecidableEq, Repr

/-- The body of `SaveSettings` on the dereferenced instance (config.go lines
781-814). `findFails` injects the outcome of `FindConfigFile` (defined
outside config.go). Returns the result, the live instance after the call
(the frame condition is that it equals `inst`), the file-system state, and
the lock trace. -/
def SaveSettingsOn (yamlOf : Settings → String) (fm : FaultModel)
    (findFails : Bool) (inst : Settings) (fs : FSState) :
    Except CatError Unit × Settings × FSState × List LockEvent :=
  -- Create a deep copy of the settings, the species list under its own lock
  let settingsCopy := settingsDeepCopy inst
  let locks : List LockEvent :=
    [.settingsRLock, .speciesRLock, .speciesRUnlock, .settingsRUnlock]
  -- Find the path of the current config file
  if findFails then
    (.error ⟨.fileIOCat, "find-config-file"⟩, inst, fs, locks)
  else
    -- Save the settings to the config file
    match SaveYAMLConfig yamlOf fm settingsCopy fs with
    | (.error _, fs', _) =>
        (.error ⟨.fileIOCat, "save-yaml-config"⟩, inst, fs', locks)
    | (.ok _, fs', _) => (.ok (), inst, fs', locks)

/-- SaveSettings saves the current settings to the configuration file
(config.go lines 779-814). It dereferences the `settingsInstance` global
without a nil check; the `none` result models the nil-pointer panic. -/
def SaveSettings (yamlOf : Settings → String) (fm : FaultModel)
    (findFails : Bool) (inst : Option Settings) (fs : FSState) :
    Option (Except CatError Unit × Settings × FSState × List LockEvent) :=
  match inst with
  | none => none -- `*settingsInstance` dereferences nil: panic
  | some s => some (SaveSettingsOn yamlOf fm findFails s fs)

/-! ### SecretGenerator: `GenerateRandomSecret` (lines 900-915) -/

/-- The URL-safe base64 alphabet (RFC 4648 section 5), as used by Go's
`base64.RawURLEncoding`. -/
def b64urlChars : String :=
  "ABCDEFGHIJKLMNOPQRSTUVWXYZabcdefghijklmnopqrstuvwxyz0123456789-_"

/-- The alphabet character for a 6-bit group. -/
def b64char (n : Nat) : Char :=
  b64urlChars.data.getD (n % 64) ('A')

/-- Go `base64.RawURLEncoding.EncodeToString`: big-endian 6-bit groups,
no padding characters. Bytes are naturals below 256. -/
def rawURLEncode : List Nat → List Char
  | b0 :: b1 :: b2 :: rest =>
      b64char (b0 / 4) ::
      b64char (b0 % 4 * 16 + b1 / 16) ::
      b64char (b1 % 16 * 4 + b2 / 64) ::
      b64char (b2 % 64) ::
      rawURLEncode rest
  | [b0, b1] =>
      [b64char (b0 / 4), b64char (b0 % 4 * 16 + b1 / 16), b64char (b1 % 16 * 4)]
  | [b0] => [b64char (b0 / 4), b64char (b0 % 4 * 16)]
  | [] => []

/-- GenerateRandomSecret generates a URL-safe base64 encoded random string
suitable for use as a client secret (config.go lines 900-915).
`entropyFails` injects failure of `rand.Read`; `randomBytes` is the content
the entropy source places in the 32-byte buffer. -/
def GenerateRandomSecret (entropyFails : Bool) (randomBytes : List Nat) : String :=
  if entropyFails then
    -- Log the error and return a safe fallback or empty string
    ""
  else String.mk (rawURLEncode randomBytes)

/-! ### `Setting` and the `sync.Once` guard (lines 816-832) -/

/-- The process-wide mutable state touched by `Setting`: the `once` guard,
the `settingsInstance` global, and the loader side-effect world. -/
structure ProcState where
  onceDone : Bool
  inst : Option Settings
  world : MatWorld

/-- What a call to `Setting` does to the caller: either the process is
terminated by `log.Fatalf`, or a pointer (possibly nil) is returned. -/
inductive SettingOutcome where
  | fatalExit
  | returned (s : Option Settings)

/-- Setting returns the current settings instance, initializing it if
necessary (config.go lines 816-832). The `Bool` component records whether
this call performed a `Load`. -/
def Setting (env : LoadEnv) (st : ProcState) : SettingOutcome × ProcState × Bool :=
  if st.onceDone then
    -- once.Do body does not run again
    (.returned (GetSettings st.inst), st, false)
  else
    match st.inst with
    | some _ =>
        -- once.Do body runs but settingsInstance != nil: no Load
        (.returned (GetSettings st.inst), { st with onceDone := true }, false)
    | none =>
        match Load env st.world st.inst with
        | (.error _, w', inst') =>
            -- Fatal error loading settings - application cannot continue
            (.fatalExit, { onceDone := true, inst := inst', world := w' }, true)
        | (.ok _, w', inst') =>
            (.returned (GetSettings inst'),
             { onceDone := true, inst := inst', world := w' }, true)

/-- Run a sequence of `Setting` calls, counting how many performed a `Load`. -/
def runSettingCalls : List LoadEnv → ProcState → ProcState × Nat
  | [], st => (st, 0)
  | e :: es, st =>
      match Setting e st with
      | (_, st', did) =>
          match runSettingCalls es st' with
          | (stf, n) => (stf, (if did then 1 else 0) + n)

/-! ### `GetWeatherSettings` (lines 917-930) -/

/-- The zero value of `OpenWeatherSettings` (Go `OpenWeatherSettings{}`). -/
def OpenWeatherSettings.zero : OpenWeatherSettings :=
  { Enabled := false, APIKey := "", Endpoint := "", Units := "", Language := "" }

/-- GetWeatherSettings returns the appropriate weather settings based on the
configuration (config.go lines 917-930). -/
def Settings.GetWeatherSettings (s : Settings) : String × OpenWeatherSettings :=
  -- First check new format
  if s.Realtime.Weather.Provider ≠ "" then
    (s.Realtime.Weather.Provider, s.Realtime.Weather.OpenWeather)
  else if s.Realtime.OpenWeather.Enabled then
    (("openweather"), s.Realtime.OpenWeather)
  else
    -- Default to YrNo if nothing is configured
    (("yrno"), OpenWeatherSettings.zero)

/-- A loader-initialization environment in which every external call
succeeds and the config file is found and read. -/
def viperOkEnv : ViperEnv :=
  { readResult := .ok, getPathsFails := false, clientSecretSet := true,
    mkdirFails := false, writeFails := false, rereadFails := false }

/-! ## Theorems -/

/-! ### Shared helper lemmas -/

theorem copyList_eq (xs : List String) : copyList xs = xs := by
  induction xs with
  | nil => rfl
  | cons x xs ih => simp [copyList, ih]

theorem settingsDeepCopy_eq (inst : Settings) : settingsDeepCopy inst = inst := by
  unfold settingsDeepCopy
  rw [copyList_eq]

theorem rawURLEncode_length (bs : List Nat) :
    (rawURLEncode bs).length = (4 * bs.length + 2) / 3 := by
  induction bs using rawURLEncode.induct with
  | case1 b0 b1 b2 rest ih => simp [rawURLEncode, ih]; omega
  | case2 b0 b1 => simp [rawURLEncode]
  | case3 b0 => simp [rawURLEncode]
  | case4 => simp [rawURLEncode]

theorem b64char_mem (n : Nat) : b64char n ∈ b64urlChars.data := by
  have h : ∀ k, k < 64 → b64urlChars.data.getD k ('A') ∈ b64urlChars.data := by decide
  exact h (n % 64) (Nat.mod_lt _ (by norm_num))

theorem rawURLEncode_mem (bs : List Nat) :
    ∀ c ∈ rawURLEncode bs, c ∈ b64urlChars.data := by
  induction bs using rawURLEncode.induct with
  | case1 b0 b1 b2 rest ih =>
      intro c hc
      simp only [rawURLEncode, List.mem_cons] at hc
      rcases hc with h | h | h | h | h
      · exact h ▸ b64char_mem _
      · exact h ▸ b64char_mem _
      · exact h ▸ b64char_mem _
      · exact h ▸ b64char_mem _
      · exact ih c h
  | case2 b0 b1 =>
      intro c hc
      simp only [rawURLEncode, List.mem_cons, List.not_mem_nil, or_false] at hc
      rcases hc with h | h | h <;> exact h ▸ b64char_mem _
  | case3 b0 =>
      intro c hc
      simp only [rawURLEncode, List.mem_cons, List.not_mem_nil, or_false] at hc
      rcases hc with h | h <;> exact h ▸ b64char_mem _
  | case4 => intro c hc; simp [rawURLEncode] at hc

/-! ### C10: weather provider resolution -/

/-- C10: for every Settings value, `GetWeatherSettings` returns the
new-format provider with its OpenWeather block when the provider string is
non-empty; otherwise ("openweather", legacy OpenWeather block) when the
legacy flag is enabled; otherwise ("yrno", zero-valued OpenWeatherSettings).
The legacy flag is consulted only when the new-format provider is empty. -/
theorem getWeatherSettings_resolution (s : Settings) :
    (s.Realtime.Weather.Provider ≠ "" →
      s.GetWeatherSettings =
        (s.Realtime.Weather.Provider, s.Realtime.Weather.OpenWeather)) ∧
    (s.Realtime.Weather.Provider = "" → s.Realtime.OpenWeather.Enabled = true →
      s.GetWeatherSettings = (("openweather"), s.Realtime.OpenWeather)) ∧
    (s.Realtime.Weather.Provider = "" → s.Realtime.OpenWeather.Enabled = false →
      s.GetWeatherSettings = (("yrno"), OpenWeatherSettings.zero)) := by
  refine ⟨fun h => ?_, fun h1 h2 => ?_, fun h1 h2 => ?_⟩ <;>
    simp_all [Settings.GetWeatherSettings]

/-- Witness for C10: on the default-valued settings (empty provider, legacy
flag off) the resolution yields the YrNo default. -/
theorem getWeatherSettings_resolution_witness :
    (default : Settings).Realtime.Weather.Provider = "" ∧
    (default : Settings).Realtime.OpenWeather.Enabled = false ∧
    (default : Settings).GetWeatherSettings = (("yrno"), OpenWeatherSettings.zero) :=
  ⟨rfl, rfl, (getWeatherSettings_resolution default).2.2 rfl rfl⟩

/-! ### C4: backup-target defaulting and required-field errors -/

/-- C4: FTP validation fails naming the host when the host is empty and
defaults port 0 to 21 otherwise; SFTP defaults port 0 to 22 and has distinct
host/username errors; Rsync defaults port 0 to 22 only when its host is
non-empty and fails when its path is empty; the required-field error
messages are pairwise distinct and each names its field. -/
theorem backup_target_defaulting (f : FTPBackupSettings) (s : SFTPBackupSettings)
    (r : RsyncBackupSettings) :
    (f.Host = "" → f.Validate = (some ("FTP host cannot be empty"), f)) ∧
    (f.Host ≠ "" → f.Port = 0 → f.Validate = (none, { f with Port := 21 })) ∧
    (s.Host = "" → s.Validate = (some ("SFTP host cannot be empty"), s)) ∧
    (s.Host ≠ "" → s.Username = "" →
      (s.Validate).1 = some ("SFTP username cannot be empty")) ∧
    (s.Host ≠ "" → s.Username ≠ "" → s.Port = 0 →
      s.Validate = (none, { s with Port := 22 })) ∧
    (r.Path = "" → r.Validate = (some ("rsync path cannot be empty"), r)) ∧
    (r.Path ≠ "" → r.Host ≠ "" → r.Port = 0 →
      r.Validate = (none, { r with Port := 22 })) ∧
    (r.Path ≠ "" → r.Host = "" → r.Validate = (none, r)) ∧
    (r.Path ≠ "" → r.Port ≠ 0 → r.Validate = (none, r)) ∧
    (containsSub ("FTP host cannot be empty") ("host") = true ∧
     containsSub ("SFTP host cannot be empty") ("host") = true ∧
     containsSub ("SFTP username cannot be empty") ("username") = true ∧
     containsSub ("rsync path cannot be empty") ("path") = true) ∧
    (("FTP host cannot be empty") ≠ ("SFTP host cannot be empty") ∧
     ("FTP host cannot be empty") ≠ ("SFTP username cannot be empty") ∧
     ("FTP host cannot be empty") ≠ ("rsync path cannot be empty") ∧
     ("SFTP host cannot be empty") ≠ ("SFTP username cannot be empty") ∧
     ("SFTP host cannot be empty") ≠ ("rsync path cannot be empty") ∧
     ("SFTP username cannot be empty") ≠ ("rsync path cannot be empty")) := by
  refine ⟨fun h1 => ?_, fun h1 h2 => ?_, fun h1 => ?_, fun h1 h2 => ?_,
    fun h1 h2 h3 => ?_, fun h1 => ?_, fun h1 h2 h3 => ?_, fun h1 h2 => ?_,
    fun h1 h2 => ?_, by decide, by decide⟩
  · simp_all [FTPBackupSettings.Validate]
  · simp_all [FTPBackupSettings.Validate]
  · simp_all [SFTPBackupSettings.Validate]
  · by_cases hp : s.Port = 0 <;> simp_all [SFTPBackupSettings.Validate]
  · simp_all [SFTPBackupSettings.Validate]
  · simp_all [RsyncBackupSettings.Validate]
  · simp_all [RsyncBackupSettings.Validate]
  · simp_all [RsyncBackupSettings.Validate]
  · simp_all [RsyncBackupSettings.Validate]

/-- Witness for C4: an FTP target with host "h" and port 0 validates
successfully with port defaulted to 21. -/
theorem backup_target_defaulting_witness :
    ({ (default : FTPBackupSettings) with Host := ("h") }).Validate =
      (none, { (default : FTPBackupSettings) with Host := ("h"), Port := 21 }) := by
  have h := (backup_target_defaulting
    { (default : FTPBackupSettings) with Host := ("h") } default default).2.1
  exact h (by decide) (by decide)

/-! ### C7: secret shape -/

/-- C7: on the success path, the secret generated from the 32-byte entropy
buffer is exactly 43 characters, drawn from the URL-safe base64 alphabet,
contains no padding character, and is the raw-URL encoding of those 32
bytes; on entropy-source failure the function returns the empty string. -/
theorem generateRandomSecret_shape :
    (∀ bs : List Nat, bs.length = 32 →
      (GenerateRandomSecret false bs).length = 43 ∧
      (∀ c ∈ (GenerateRandomSecret false bs).data, c ∈ b64urlChars.data) ∧
      ('=' ∉ (GenerateRandomSecret false bs).data) ∧
      GenerateRandomSecret false bs = String.mk (rawURLEncode bs)) ∧
    (∀ bs : List Nat, GenerateRandomSecret true bs = "") := by
  constructor
  · intro bs hlen
    refine ⟨?_, ?_, ?_, rfl⟩
    · show (rawURLEncode bs).length = 43
      rw [rawURLEncode_length, hlen]
    · intro c hc
      exact rawURLEncode_mem bs c hc
    · intro hc
      have h1 : ('=') ∈ b64urlChars.data := rawURLEncode_mem bs _ hc
      revert h1
      decide
  · intro bs
    rfl

/-- Witness for C7: a concrete 32-byte buffer yields a 43-character secret. -/
theorem generateRandomSecret_shape_witness :
    (List.replicate 32 7).length = 32 ∧
    (GenerateRandomSecret false (List.replicate 32 7)).length = 43 :=
  ⟨by decide, (generateRandomSecret_shape.1 (List.replicate 32 7) (by decide)).1⟩

/-! ### C2: warning/fatal classification during Load -/

theorem processValidationMsgs_all_warn (s : Settings) (msgs : List String)
    (h : ∀ m ∈ msgs, isWarningMsg m = true) :
    processValidationMsgs s msgs =
      .ok { s with ValidationWarnings := s.ValidationWarnings ++ msgs } := by
  induction msgs generalizing s with
  | nil => simp [processValidationMsgs]
  | cons m rest ih =>
      have hm : isWarningMsg m = true := h m (List.mem_cons_self m rest)
      rw [processValidationMsgs, if_pos hm,
        ih _ (fun x hx => h x (List.mem_cons_of_mem m hx))]
      simp

theorem processValidationMsgs_fatal (s : Settings) (msgs : List String)
    (h : ∃ m ∈ msgs, isWarningMsg m = false) :
    ∃ e, processValidationMsgs s msgs = .error e ∧ e.category = .validation := by
  induction msgs generalizing s with
  | nil => simp at h
  | cons m rest ih =>
      by_cases hm : isWarningMsg m = true
      · rw [processValidationMsgs, if_pos hm]
        apply ih
        rcases h with ⟨x, hx, hxw⟩
        rcases List.mem_cons.mp hx with hxm | hxr
        · rw [hxm] at hxw; rw [hxw] at hm; cases hm
        · exact ⟨x, hxr, hxw⟩
      · rw [processValidationMsgs, if_neg hm]
        exact ⟨⟨.validation, m⟩, rfl, rfl⟩

/-- C2: with loader initialization and unmarshalling succeeding and
`ValidateSettings` returning a ValidationError carrying `msgs`: if every
message contains "fallback" or "not supported", `Load` succeeds and installs
the parsed settings with all messages appended to the runtime-only
`ValidationWarnings` list; if some message contains neither substring,
`Load` returns a Validation-category error; `Load` succeeds exactly when
every message is a warning. -/
theorem load_warning_classification (parsed : Settings) (msgs : List String)
    (w : MatWorld) (prev : Option Settings) :
    ((∀ m ∈ msgs, isWarningMsg m = true) →
      Load ⟨viperOkEnv, false, parsed, .validationErr msgs⟩ w prev =
        (.ok { parsed with
            ValidationWarnings := parsed.ValidationWarnings ++ msgs }, w,
         some { parsed with
            ValidationWarnings := parsed.ValidationWarnings ++ msgs })) ∧
    ((∃ m ∈ msgs, isWarningMsg m = false) →
      ∃ e, (Load ⟨viperOkEnv, false, parsed, .validationErr msgs⟩ w prev).1 =
          .error e ∧ e.category = .validation) ∧
    (exceptOk (Load ⟨viperOkEnv, false, parsed, .validationErr msgs⟩ w prev).1 = true ↔
      ∀ m ∈ msgs, isWarningMsg m = true) := by
  have hload : Load ⟨viperOkEnv, false, parsed, .validationErr msgs⟩ w prev =
      match processValidationMsgs parsed msgs with
      | .error e => (.error e, w, prev)
      | .ok s => (.ok s, w, some s) := by
    rfl
  refine ⟨fun h => ?_, fun h => ?_, ?_⟩
  · rw [hload, processValidationMsgs_all_warn parsed msgs h]
  · rcases processValidationMsgs_fatal parsed msgs h with ⟨e, he, hcat⟩
    rw [hload, he]
    exact ⟨e, rfl, hcat⟩
  · constructor
    · intro hok
      by_contra hnot
      push_neg at hnot
      rcases hnot with ⟨m, hm, hmw⟩
      rcases processValidationMsgs_fatal parsed msgs
        ⟨m, hm, by simpa using hmw⟩ with ⟨e, he, -⟩
      rw [hload, he] at hok
      simp [exceptOk] at hok
    · intro h
      rw [hload, processValidationMsgs_all_warn parsed msgs h]
      rfl

/-- Witness for C2: a single fallback-flavoured message is recorded as a
warning and the load succeeds. -/
theorem load_warning_classification_witness :
    Load ⟨viperOkEnv, false, (default : Settings),
        .validationErr [("locale fallback to en")]⟩ ⟨none, none, false⟩ none =
      (.ok { (default : Settings) with
          ValidationWarnings :=
            (default : Settings).ValidationWarnings ++ [("locale fallback to en")] },
       ⟨none, none, false⟩,
       some { (default : Settings) with
          ValidationWarnings :=
            (default : Settings).ValidationWarnings ++ [("locale fallback to en")] }) :=
  (load_warning_classification default [("locale fallback to en")]
    ⟨none, none, false⟩ none).1 (by decide)

/-! ### C3: Load installs the instance only on success -/

theorem load_error_keeps (env : LoadEnv) (w : MatWorld) (prev : Option Settings) :
    ∀ e, (Load env w prev).1 = .error e → (Load env w prev).2.2 = prev := by
  intro e
  rcases hiv : initViper env.viper w with ⟨r, w2⟩
  unfold Load
  rw [hiv]
  cases r with
  | error e2 => simp
  | ok u =>
      cases u
      by_cases hu : env.unmarshalFails
      · simp [hu]
      · cases hv : env.validate with
        | passed => simp [hu]
        | otherErr => simp [hu]
        | validationErr msgs =>
            rcases hp : processValidationMsgs env.parsed msgs with e3 | s3 <;>
              simp [hu, hp]

theorem load_ok_installs (env : LoadEnv) (w : MatWorld) (prev : Option Settings) :
    ∀ s, (Load env w prev).1 = .ok s → (Load env w prev).2.2 = some s := by
  intro s
  rcases hiv : initViper env.viper w with ⟨r, w2⟩
  unfold Load
  rw [hiv]
  cases r with
  | error e2 => simp
  | ok u =>
      cases u
      by_cases hu : env.unmarshalFails
      · simp [hu]
      · cases hv : env.validate with
        | passed => intro h; simp_all
        | otherErr => simp [hu]
        | validationErr msgs =>
            rcases hp : processValidationMsgs env.parsed msgs with e3 | s3 <;>
              (intro h; simp_all)

/-- C3: for every injected environment and prior instance, `Load` leaves the
process-wide instance untouched on every failure path (viper init error,
unmarshal error, fatal validation error) and installs exactly the settings
value it returns on success. -/
theorem load_install_atomic (env : LoadEnv) (w : MatWorld) (prev : Option Settings) :
    (∀ e, (Load env w prev).1 = .error e → (Load env w prev).2.2 = prev) ∧
    (∀ s, (Load env w prev).1 = .ok s → (Load env w prev).2.2 = some s) :=
  ⟨load_error_keeps env w prev, load_ok_installs env w prev⟩

/-- Witness for C3: a read failure other than not-found aborts the load and
the previously installed instance survives unchanged. -/
theorem load_install_atomic_witness :
    (Load ⟨{ viperOkEnv with readResult := .otherFail }, false, default, .passed⟩
        ⟨none, none, false⟩ (some default)).1 = .error ⟨.configuration, ("init-viper")⟩ ∧
    (Load ⟨{ viperOkEnv with readResult := .otherFail }, false, default, .passed⟩
        ⟨none, none, false⟩ (some default)).2.2 = some default :=
  ⟨rfl,
   (load_install_atomic ⟨{ viperOkEnv with readResult := .otherFail }, false,
      default, .passed⟩ ⟨none, none, false⟩ (some default)).1
     ⟨.configuration, ("init-viper")⟩ rfl⟩

/-! ### C5: materialization trigger and permissions -/

/-- C5: starting from a fresh side-effect world, the default document is
written only when the read outcome is the not-found condition; any other
read failure yields a FileIO-category error with nothing written; on the
not-found path with the file operations succeeding, the directories are
created with 0755 (= 493) and the document with 0600 (= 384), and a client
secret is generated exactly when none was set. -/
theorem materialization_trigger (env : ViperEnv) :
    ((initViper env ⟨none, none, false⟩).2.defaultWritten ≠ none →
      env.readResult = .notFound) ∧
    (env.getPathsFails = false → env.readResult = .otherFail →
      (initViper env ⟨none, none, false⟩).1 =
        .error ⟨.fileIOCat, ("read-config-file")⟩ ∧
      (initViper env ⟨none, none, false⟩).2 = ⟨none, none, false⟩) ∧
    (env.getPathsFails = false → env.readResult = .ok →
      (initViper env ⟨none, none, false⟩).2 = ⟨none, none, false⟩) ∧
    (env.getPathsFails = false → env.readResult = .notFound →
      env.mkdirFails = false → env.writeFails = false →
      (initViper env ⟨none, none, false⟩).2.dirsCreated = some 493 ∧
      (initViper env ⟨none, none, false⟩).2.defaultWritten = some 384 ∧
      (initViper env ⟨none, none, false⟩).2.secretGenerated = !env.clientSecretSet) := by
  obtain ⟨rr, gp, cs, mk, wf, rf⟩ := env
  cases rr <;> cases gp <;> cases cs <;> cases mk <;> cases wf <;> cases rf <;>
    simp [initViper, createDefaultConfig]

/-- Witness for C5: the not-found condition with all file operations
succeeding and no secret configured writes the default document with 0600,
its directories with 0755, and generates a secret. -/
theorem materialization_trigger_witness :
    (initViper ⟨.notFound, false, false, false, false, false⟩
        ⟨none, none, false⟩).2.dirsCreated = some 493 ∧
    (initViper ⟨.notFound, false, false, false, false, false⟩
        ⟨none, none, false⟩).2.defaultWritten = some 384 ∧
    (initViper ⟨.notFound, false, false, false, false, false⟩
        ⟨none, none, false⟩).2.secretGenerated = true :=
  (materialization_trigger ⟨.notFound, false, false, false, false, false⟩).2.2.2
    rfl rfl rfl rfl

/-! ### C1: atomic persistence of `SaveYAMLConfig` -/

theorem saveYAML_spec (yamlOf : Settings → String) (fm : FaultModel)
    (settings : Settings) (d : Option String) :
    (∀ e, (SaveYAMLConfig yamlOf fm settings ⟨d, none⟩).1 = .error e →
        (SaveYAMLConfig yamlOf fm settings ⟨d, none⟩).2.1 = ⟨d, none⟩) ∧
    ((SaveYAMLConfig yamlOf fm settings ⟨d, none⟩).1 = .ok () →
        (SaveYAMLConfig yamlOf fm settings ⟨d, none⟩).2.1 =
          ⟨some (yamlOf settings), none⟩) ∧
    ((SaveYAMLConfig yamlOf fm settings ⟨d, none⟩).2.1.temp = none) ∧
    (fm.marshalFails = false → fm.createTempFails = false → fm.writeFails = false →
     fm.closeFails = false → fm.renameFails = true →
        FileEvent.copyFallback ∈ (SaveYAMLConfig yamlOf fm settings ⟨d, none⟩).2.2 ∧
        (fm.copyFails = false →
          FileEvent.deleteSrc ∈ (SaveYAMLConfig yamlOf fm settings ⟨d, none⟩).2.2 ∧
          (SaveYAMLConfig yamlOf fm settings ⟨d, none⟩).1 = .ok ())) := by
  obtain ⟨m, ct, wf, cf, rn, cp⟩ := fm
  cases m <;> cases ct <;> cases wf <;> cases cf <;> cases rn <;> cases cp <;>
    simp [SaveYAMLConfig, moveFile]

/-- C1: for every serializer, fault pattern, snapshot and destination
content (no temporary file existing beforehand): if any step fails the
destination document is unchanged, and no temporary file remains after the
call on any path; if the rename step fails after a successful write and
close, the operation falls back to the copy-then-delete sequence; a
successful return means the destination holds exactly the serialized
snapshot. -/
theorem saveYAMLConfig_atomicity (yamlOf : Settings → String) (fm : FaultModel)
    (settings : Settings) (d : Option String) :
    (∀ e, (SaveYAMLConfig yamlOf fm settings ⟨d, none⟩).1 = .error e →
        (SaveYAMLConfig yamlOf fm settings ⟨d, none⟩).2.1 = ⟨d, none⟩) ∧
    ((SaveYAMLConfig yamlOf fm settings ⟨d, none⟩).1 = .ok () →
        (SaveYAMLConfig yamlOf fm settings ⟨d, none⟩).2.1 =
          ⟨some (yamlOf settings), none⟩) ∧
    ((SaveYAMLConfig yamlOf fm settings ⟨d, none⟩).2.1.temp = none) ∧
    (fm.marshalFails = false → fm.createTempFails = false → fm.writeFails = false →
     fm.closeFails = false → fm.renameFails = true →
        FileEvent.copyFallback ∈ (SaveYAMLConfig yamlOf fm settings ⟨d, none⟩).2.2 ∧
        (fm.copyFails = false →
          FileEvent.deleteSrc ∈ (SaveYAMLConfig yamlOf fm settings ⟨d, none⟩).2.2 ∧
          (SaveYAMLConfig yamlOf fm settings ⟨d, none⟩).1 = .ok ())) :=
  saveYAML_spec yamlOf fm settings d

/-- Witness for C1: with only the rename step failing, the copy-then-delete
fallback runs and the save still succeeds. -/
theorem saveYAMLConfig_atomicity_witness :
    FileEvent.copyFallback ∈ (SaveYAMLConfig (fun _ => ("data"))
      ⟨false, false, false, false, true, false⟩ default ⟨some ("old"), none⟩).2.2 ∧
    FileEvent.deleteSrc ∈ (SaveYAMLConfig (fun _ => ("data"))
      ⟨false, false, false, false, true, false⟩ default ⟨some ("old"), none⟩).2.2 ∧
    (SaveYAMLConfig (fun _ => ("data"))
      ⟨false, false, false, false, true, false⟩ default ⟨some ("old"), none⟩).1 = .ok () := by
  have h := (saveYAMLConfig_atomicity (fun _ => ("data"))
    ⟨false, false, false, false, true, false⟩ default (some ("old"))).2.2.2
    rfl rfl rfl rfl rfl
  exact ⟨h.1, (h.2 rfl).1, (h.2 rfl).2⟩

/-! ### C6: SaveSettings frame condition -/

/-- C6: `SaveSettings` (on a dereferenced instance) takes the shared
settings lock and the species list's own lock, builds a deep copy whose
species slice is a fresh copy (and which therefore equals the live value),
persists that copy on success, and leaves the live instance unchanged on
every path. -/
theorem saveSettings_frame (yamlOf : Settings → String) (fm : FaultModel)
    (findFails : Bool) (inst : Settings) (d : Option String) :
    ((SaveSettingsOn yamlOf fm findFails inst ⟨d, none⟩).2.1 = inst) ∧
    (settingsDeepCopy inst = inst) ∧
    ((SaveSettingsOn yamlOf fm findFails inst ⟨d, none⟩).2.2.2 =
      [.settingsRLock, .speciesRLock, .speciesRUnlock, .settingsRUnlock]) ∧
    ((SaveSettingsOn yamlOf fm findFails inst ⟨d, none⟩).1 = .ok () →
      (SaveSettingsOn yamlOf fm findFails inst ⟨d, none⟩).2.2.1 =
        ⟨some (yamlOf (settingsDeepCopy inst)), none⟩) := by
  refine ⟨?_, settingsDeepCopy_eq inst, ?_, ?_⟩
  · unfold SaveSettingsOn
    by_cases hf : findFails
    · simp [hf]
    · rcases hsy : SaveYAMLConfig yamlOf fm (settingsDeepCopy inst) ⟨d, none⟩
        with ⟨r, fs', evs⟩
      cases r <;> simp [hf, hsy]
  · unfold SaveSettingsOn
    by_cases hf : findFails
    · simp [hf]
    · rcases hsy : SaveYAMLConfig yamlOf fm (settingsDeepCopy inst) ⟨d, none⟩
        with ⟨r, fs', evs⟩
      cases r <;> simp [hf, hsy]
  · unfold SaveSettingsOn
    by_cases hf : findFails
    · simp [hf]
    · rcases hsy : SaveYAMLConfig yamlOf fm (settingsDeepCopy inst) ⟨d, none⟩
        with ⟨r, fs', evs⟩
      cases r with
      | error e => simp [hf, hsy]
      | ok u =>
          cases u
          intro _
          have h2 := (saveYAML_spec yamlOf fm (settingsDeepCopy inst) d).2.1
          rw [hsy] at h2
          have h3 := h2 rfl
          simp [hf, hsy]
          exact h3

/-- Witness for C6: with every external call succeeding, the persisted
document is the serialization of the deep copy. -/
theorem saveSettings_frame_witness :
    (SaveSettingsOn (fun _ => ("y")) ⟨false, false, false, false, false, false⟩
      false default ⟨none, none⟩).2.2.1 = ⟨some ("y"), none⟩ := by
  have h := (saveSettings_frame (fun _ => ("y"))
    ⟨false, false, false, false, false, false⟩ false default none).2.2.2 rfl
  exact h

/-! ### C9: SaveSettings requires a prior successful Load -/

/-- C9: when no instance is installed, `GetSettings` returns the nil
reference (no default is substituted) and `SaveSettings` hits the nil
dereference; a failing `Load` from the uninitialized state leaves the nil
instance in place; when an instance is installed the dereference is safe. -/
theorem saveSettings_requires_load (yamlOf : Settings → String) (fm : FaultModel)
    (findFails : Bool) (d : Option String) (env : LoadEnv) (w : MatWorld) :
    (GetSettings none = none) ∧
    (SaveSettings yamlOf fm findFails none ⟨d, none⟩ = none) ∧
    (∀ e, (Load env w none).1 = .error e → (Load env w none).2.2 = none) ∧
    (∀ s : Settings, (SaveSettings yamlOf fm findFails (some s) ⟨d, none⟩).isSome = true) :=
  ⟨rfl, rfl, load_error_keeps env w none, fun _ => rfl⟩

/-- Witness for C9: concretely, with no instance installed the save panics
(no result) and a failed load leaves the instance nil. -/
theorem saveSettings_requires_load_witness :
    SaveSettings (fun _ => ("y")) ⟨false, false, false, false, false, false⟩
      false none ⟨none, none⟩ = none ∧
    (Load ⟨{ viperOkEnv with readResult := .otherFail }, false, default, .passed⟩
      ⟨none, none, false⟩ none).2.2 = none := by
  have h := saveSettings_requires_load (fun _ => ("y"))
    ⟨false, false, false, false, false, false⟩ false none
    ⟨{ viperOkEnv with readResult := .otherFail }, false, default, .passed⟩
    ⟨none, none, false⟩
  exact ⟨h.2.1, h.2.2.1 ⟨.configuration, ("init-viper")⟩ rfl⟩

/-! ### C8: lazy one-time initialization of `Setting` -/

theorem setting_done_id (e : LoadEnv) (st : ProcState) (h : st.onceDone = true) :
    Setting e st = (.returned (GetSettings st.inst), st, false) := by
  unfold Setting
  rw [h]
  simp

theorem runSettingCalls_done (es : List LoadEnv) (st : ProcState)
    (h : st.onceDone = true) : runSettingCalls es st = (st, 0) := by
  induction es with
  | nil => rfl
  | cons e es ih => simp [runSettingCalls, setting_done_id e st h, ih]

/-- C8: from a fresh process state the first call to `Setting` performs the
one load, after which the once-guard is set; the call terminates fatally
exactly when that load fails and otherwise returns the newly installed
instance; every call in a state with the guard set performs no load and
returns `GetSettings`; over any nonempty sequence of calls from a fresh
state exactly one load happens. -/
theorem setting_lazy_once (env : LoadEnv) (w : MatWorld) (st : ProcState)
    (e1 : LoadEnv) (es : List LoadEnv) :
    ((Setting env ⟨false, none, w⟩).2.2 = true) ∧
    ((Setting env ⟨false, none, w⟩).2.1.onceDone = true) ∧
    (∀ err, (Load env w none).1 = .error err →
      (Setting env ⟨false, none, w⟩).1 = .fatalExit) ∧
    (∀ s, (Load env w none).1 = .ok s →
      (Setting env ⟨false, none, w⟩).1 =
        .returned (GetSettings (Load env w none).2.2)) ∧
    (st.onceDone = true →
      Setting e1 st = (.returned (GetSettings st.inst), st, false)) ∧
    ((runSettingCalls (e1 :: es) ⟨false, none, w⟩).2 = 1) := by
  refine ⟨?_, ?_, ?_, ?_, setting_done_id e1 st, ?_⟩
  · rcases hl : Load env w none with ⟨r, w', i'⟩
    cases r <;> simp [Setting, hl]
  · rcases hl : Load env w none with ⟨r, w', i'⟩
    cases r <;> simp [Setting, hl]
  · intro err herr
    rcases hl : Load env w none with ⟨r, w', i'⟩
    rw [hl] at herr
    cases r with
    | error e2 => simp [Setting, hl]
    | ok s => simp at herr
  · intro s hs
    rcases hl : Load env w none with ⟨r, w', i'⟩
    rw [hl] at hs
    cases r with
    | error e2 => simp at hs
    | ok s2 => simp [Setting, hl]
  · rcases hl : Load e1 w none with ⟨r, w', i'⟩
    have hd := runSettingCalls_done es ⟨true, i', w'⟩ rfl
    cases r <;> simp [runSettingCalls, Setting, hl, hd]

/-- Witness for C8: one successful call from a fresh state performs exactly
one load, and a second call in the resulting state performs none. -/
theorem setting_lazy_once_witness :
    (runSettingCalls [⟨viperOkEnv, false, default, .passed⟩]
      ⟨false, none, ⟨none, none, false⟩⟩).2 = 1 ∧
    Setting ⟨viperOkEnv, false, default, .passed⟩
        ⟨true, some default, ⟨none, none, false⟩⟩ =
      (.returned (GetSettings (some default)),
       ⟨true, some default, ⟨none, none, false⟩⟩, false) := by
  have h := setting_lazy_once ⟨viperOkEnv, false, default, .passed⟩
    ⟨none, none, false⟩ ⟨true, some default, ⟨none, none, false⟩⟩
    ⟨viperOkEnv, false, default, .passed⟩ []
  exact ⟨h.2.2.2.2.2, h.2.2.2.2.1 rfl⟩

end Conf
